import Mathlib

/-!
Shallow embedding of the avplay media-player core
(`src/packages/mediafox/src/playback/renderers/canvas2d.ts`, which holds
the `Canvas2DRenderer` class and the `PlayerCore` class), together with
models of the external collaborators (`StateFacade`, `PlaybackController`,
`TrackSwitcher`) whose sources are not in the repository snapshot; those
are modelled from the specification (spec.md §4.1–§4.3).
-/

set_option maxHeartbeats 1000000

/-- JavaScript `Math.round`: round half toward positive infinity,
`Math.round x = ⌊x + 1/2⌋`. -/
def jsRound (q : ℚ) : ℤ := ⌊q + 1 / 2⌋

namespace Canvas2DRenderer

/-- A canvas surface: `width`/`height` are the canvas pixel dimensions
(non-negative integers, as in the DOM `canvas.width`/`canvas.height`). -/
structure Canvas where
  width : ℕ
  height : ℕ
deriving DecidableEq, Repr

/-- State of a `Canvas2DRenderer` instance: the target canvas, whether a 2D
context was obtained (`ctx !== null`), and the `isInitialized` flag. -/
structure RendererState where
  canvas : Canvas
  hasCtx : Bool
  isInitialized : Bool
deriving DecidableEq, Repr

/-- The `initialize` method of `Canvas2DRenderer`: if `getContext('2d')`
yields a context (`ctxObtained`), record it and set `isInitialized`;
otherwise leave the renderer unready. Mirrors canvas2d.ts lines 17–36. -/
def initRenderer (canvas : Canvas) (ctxObtained : Bool) : RendererState :=
  if ctxObtained then ⟨canvas, true, true⟩ else ⟨canvas, false, false⟩

/-- `Canvas2DRenderer.isReady` (canvas2d.ts lines 38–40). -/
def isReady (r : RendererState) : Bool :=
  r.isInitialized && r.hasCtx

/-- `Canvas2DRenderer.dispose` (canvas2d.ts lines 92–95): drops the context
and clears the initialized flag. -/
def dispose (r : RendererState) : RendererState :=
  { r with hasCtx := false, isInitialized := false }

/-- The destination rectangle passed to `drawImage`. -/
structure Draw where
  dx : ℤ
  dy : ℤ
  destW : ℤ
  destH : ℤ
deriving DecidableEq, Repr

/-- The letterbox computation of `Canvas2DRenderer.render`
(canvas2d.ts lines 64–69): `scale = min(cw/sw, ch/sh)`,
`destW = round(sw*scale)`, `destH = round(sh*scale)`,
`dx = round((cw-destW)/2)`, `dy = round((ch-destH)/2)`. -/
def renderRect (sw sh cw ch : ℕ) : Draw :=
  let scale : ℚ := min ((cw : ℚ) / (sw : ℚ)) ((ch : ℚ) / (sh : ℚ))
  let destW : ℤ := jsRound ((sw : ℚ) * scale)
  let destH : ℤ := jsRound ((sh : ℚ) * scale)
  let dx : ℤ := jsRound (((cw : ℚ) - (destW : ℚ)) / 2)
  let dy : ℤ := jsRound (((ch : ℚ) - (destH : ℚ)) / 2)
  ⟨dx, dy, destW, destH⟩

/-- `Canvas2DRenderer.render` (canvas2d.ts lines 42–82).  Returns the
boolean result together with the draw command actually issued (`none` when
nothing was drawn).  `drawFails` models `drawImage` raising inside the
`try` block, which the source converts to `return false`. -/
def render (r : RendererState) (source : Canvas) (drawFails : Bool) :
    Bool × Option Draw :=
  if ¬(isReady r = true) then (false, none)
  else if source.width = 0 ∨ source.height = 0 then (false, none)
  else if r.canvas.width = 0 ∨ r.canvas.height = 0 then (false, none)
  else if drawFails then (false, none)
  else (true, some (renderRect source.width source.height r.canvas.width r.canvas.height))

end Canvas2DRenderer

/-- A track descriptor (id, codec, language), as copied by reference into
player state (spec §3). -/
structure Track where
  id : ℕ
  codec : String
  language : String
deriving DecidableEq, Repr

/-- The `MediaInfo` record assembled by `PlayerCore.load`
(canvas2d.ts lines 141–149). -/
structure MediaInfo where
  duration : ℚ
  format : String
  mimeType : String
  metadata : List (String × String)
  hasVideo : Bool
  hasAudio : Bool
  hasSubtitles : Bool
deriving DecidableEq, Repr

/-- Lifecycle tag of the player state (spec §3): one of
`idle | loading | ready | seeking | error`. -/
inductive Lifecycle
  | idle
  | loading
  | ready
  | seeking
  | error
deriving DecidableEq, Repr

/-- The `PlayerState` snapshot owned by `StateFacade` (spec §3). -/
structure PlayerState where
  lifecycle : Lifecycle
  duration : ℚ
  currentTime : ℚ
  isPlaying : Bool
  mediaInfo : Option MediaInfo
  videoTracks : List Track
  audioTracks : List Track
  subtitleTracks : List Track
  error : Option String
deriving DecidableEq, Repr

/-- The idle default player state restored by `reset()` (spec §4.1). -/
def PlayerState.initial : PlayerState :=
  ⟨.idle, 0, 0, false, none, [], [], [], none⟩

/-- The `mediaInfo`/track facets of a snapshot, observed together. -/
def PlayerState.mt (p : PlayerState) :
    Option MediaInfo × List Track × List Track × List Track :=
  (p.mediaInfo, p.videoTracks, p.audioTracks, p.subtitleTracks)

/-- Modelled from the spec: `StateFacade` (spec §4.1) is missing from the
repository snapshot.  It holds the current `PlayerState` and every setter
is synchronous and triggers a subscriber notification with the new
snapshot; `hist` records those notification snapshots, oldest first. -/
structure StateFacade where
  cur : PlayerState
  hist : List PlayerState
deriving DecidableEq, Repr

namespace StateFacade

/-- Apply a pure state mutation and notify subscribers with the new
snapshot (spec §4.1: each setter mutates one facet, synchronously, and
notifies). -/
def set (f : PlayerState → PlayerState) (st : StateFacade) : StateFacade :=
  ⟨f st.cur, st.hist ++ [f st.cur]⟩

/-- Modelled from the spec: `reset()` restores all fields to their idle
defaults and clears `error` (spec §4.1). -/
def reset (st : StateFacade) : StateFacade :=
  set (fun _ => PlayerState.initial) st

/-- Modelled from the spec: `updateLoadingState` moves the lifecycle to
`loading` (spec §4.4 step 1). -/
def updateLoadingState (st : StateFacade) : StateFacade :=
  set (fun p => { p with lifecycle := .loading }) st

/-- Modelled from the spec: `updateDuration` writes the duration facet. -/
def updateDuration (d : ℚ) (st : StateFacade) : StateFacade :=
  set (fun p => { p with duration := d }) st

/-- Modelled from the spec: `updateMediaInfo` replaces the `mediaInfo`
record wholesale (spec §3). -/
def updateMediaInfo (mi : MediaInfo) (st : StateFacade) : StateFacade :=
  set (fun p => { p with mediaInfo := some mi }) st

/-- Modelled from the spec: `updateTracks` writes the three ordered track
sequences (spec §3). -/
def updateTracks (v a s : List Track) (st : StateFacade) : StateFacade :=
  set (fun p => { p with videoTracks := v, audioTracks := a, subtitleTracks := s }) st

/-- Modelled from the spec: `updateReadyState(true, true)` marks the player
ready (spec §4.4 step 9: lifecycle `loading → ready`). -/
def updateReadyState (st : StateFacade) : StateFacade :=
  set (fun p => { p with lifecycle := .ready }) st

/-- Modelled from the spec: `updatePlaybackState` writes `isPlaying`. -/
def updatePlaybackState (b : Bool) (st : StateFacade) : StateFacade :=
  set (fun p => { p with isPlaying := b }) st

/-- Modelled from the spec: `updateSeekingState` drives the
`ready ⇄ seeking` lifecycle transition (spec §4.4): `true` enters
`seeking`; `false` returns a seeking lifecycle to `ready` and leaves any
other lifecycle alone. -/
def updateSeekingState (b : Bool) (st : StateFacade) : StateFacade :=
  set (fun p =>
    { p with lifecycle :=
        if b then .seeking
        else if p.lifecycle = .seeking then .ready
        else p.lifecycle }) st

/-- Modelled from the spec: `updateTime` writes `currentTime`. -/
def updateTime (t : ℚ) (st : StateFacade) : StateFacade :=
  set (fun p => { p with currentTime := t }) st

/-- Modelled from the spec: `updateError` records the error into state and
moves the lifecycle to `error` (spec §4.4: `* → error`; §7: fatal errors
are written into state). -/
def updateError (msg : String) (st : StateFacade) : StateFacade :=
  set (fun p => { p with error := some msg, lifecycle := .error }) st

end StateFacade

/-- Modelled from the spec: `PlaybackController` (spec §4.3) is missing
from the repository snapshot.  It owns transport position, duration and
the transport clock. -/
structure Ctrl where
  position : ℚ
  duration : ℚ
  playing : Bool
deriving DecidableEq, Repr

namespace Ctrl

/-- Modelled from the spec: `setDuration` (spec §4.3). -/
def setDuration (d : ℚ) (c : Ctrl) : Ctrl := { c with duration := d }

/-- Modelled from the spec: a successful `play()` starts the clock. -/
def doPlay (c : Ctrl) : Ctrl := { c with playing := true }

/-- Modelled from the spec: `pause()` is synchronous, stops the clock
immediately and never fails (spec §4.3). -/
def doPause (c : Ctrl) : Ctrl := { c with playing := false }

/-- Modelled from the spec: a successful `seek(time)` clamps out-of-range
`time` into `[0, duration]`; the resulting position is authoritative and
may differ from the request (spec §4.3). -/
def doSeek (t : ℚ) (c : Ctrl) : Ctrl :=
  { c with position := max 0 (min t c.duration) }

/-- Modelled from the spec: `getCurrentTime` reads the authoritative
transport position (spec §4.3). -/
def getCurrentTime (c : Ctrl) : ℚ := c.position

end Ctrl

/-- The `TrackSwitchResult` consumed once per load by `PlayerCore`
(spec §3 and canvas2d.ts lines 168–171). -/
structure TrackSwitchResult where
  warningMessage : String
  videoSupported : Bool
  audioSupported : Bool
deriving DecidableEq, Repr

/-- Events emitted by `PlayerCore` through `deps.emit`, with their
payloads (canvas2d.ts). -/
inductive Event
  | loadstart
  | loadedmetadata (mi : MediaInfo)
  | loadeddata
  | canplay
  | canplaythrough
  | play
  | playing
  | pause
  | seeking (t : ℚ)
  | seeked (t : ℚ)
  | warning (msg : String)
  | error (msg : String)
deriving DecidableEq, Repr

/-- The name of an event, without its payload. -/
inductive EventName
  | loadstart
  | loadedmetadata
  | loadeddata
  | canplay
  | canplaythrough
  | play
  | playing
  | pause
  | seeking
  | seeked
  | warning
  | error
deriving DecidableEq, Repr

/-- Project an event to its name. -/
def Event.name : Event → EventName
  | .loadstart => .loadstart
  | .loadedmetadata _ => .loadedmetadata
  | .loadeddata => .loadeddata
  | .canplay => .canplay
  | .canplaythrough => .canplaythrough
  | .play => .play
  | .playing => .playing
  | .pause => .pause
  | .seeking _ => .seeking
  | .seeked _ => .seeked
  | .warning _ => .warning
  | .error _ => .error

/-- Outcomes of the external collaborators for one batch of `PlayerCore`
calls: `SourceManager.createSource`, the nullable `sourceInfo.input`,
`TrackManager.initialize`, the four-way metadata fetch, the track lists
and flags reported by `TrackManager`, the primary tracks, the
`TrackSwitcher.setupInitialTracks` result (the switcher never throws,
spec §4.2), and the failure behaviour of `PlaybackController.play`/`seek`.
Errors are identified by their message strings. -/
structure Env where
  sourceError : Option String
  inputPresent : Bool
  trackInitError : Option String
  metadataError : Option String
  duration : ℚ
  formatName : String
  mimeType : String
  tags : List (String × String)
  hasVideo : Bool
  hasAudio : Bool
  hasSubtitles : Bool
  videoTracks : List Track
  audioTracks : List Track
  subtitleTracks : List Track
  primaryVideoTrack : Option Track
  primaryAudioTrack : Option Track
  setup : TrackSwitchResult
  playError : Option String
  seekError : ℚ → Option String

/-- The whole mutable system a `PlayerCore` instance drives: the
`StateFacade` and the `PlaybackController`. -/
structure Sys where
  facade : StateFacade
  ctrl : Ctrl
deriving Repr

/-- Result of one fallible `PlayerCore` method: the new system state, the
events emitted during the call (in emission order), and the settled
promise. -/
structure MRes where
  sys : Sys
  events : List Event
  result : Except String Unit
deriving Repr

namespace PlayerCore

/-- `PlayerCore.handleError` (canvas2d.ts lines 252–256): record the error
into state, then emit the `error` event. -/
def handleError (msg : String) (s : Sys) : Sys × List Event :=
  (⟨s.facade.updateError msg, s.ctrl⟩, [Event.error msg])

/-- `PlayerCore.play` (canvas2d.ts lines 202–215). -/
def play (env : Env) (s : Sys) : MRes :=
  if s.facade.cur.lifecycle = .idle then
    let (s', evs) := handleError "No media loaded" s
    ⟨s', evs, .error "No media loaded"⟩
  else
    match env.playError with
    | some e =>
      let (s', evs) := handleError e s
      ⟨s', evs, .error e⟩
    | none =>
      ⟨⟨s.facade.updatePlaybackState true, s.ctrl.doPlay⟩,
        [Event.play, Event.playing], .ok ()⟩

/-- `PlayerCore.pause` (canvas2d.ts lines 217–221): synchronous, delegates
to the controller, clears `isPlaying`, emits `pause`. -/
def pause (s : Sys) : Sys × List Event :=
  (⟨s.facade.updatePlaybackState false, s.ctrl.doPause⟩, [Event.pause])

/-- `PlayerCore.seek` (canvas2d.ts lines 223–240). -/
def seek (env : Env) (t : ℚ) (s : Sys) : MRes :=
  if s.facade.cur.lifecycle = .idle then
    let f1 := s.facade.updateSeekingState false
    let (s', evs) := handleError "No media loaded" ⟨f1, s.ctrl⟩
    ⟨s', evs, .error "No media loaded"⟩
  else
    let f1 := s.facade.updateSeekingState true
    match env.seekError t with
    | some e =>
      let f2 := f1.updateSeekingState false
      let (s', evs) := handleError e ⟨f2, s.ctrl⟩
      ⟨s', Event.seeking t :: evs, .error e⟩
    | none =>
      let ctrl' := s.ctrl.doSeek t
      let f2 := f1.updateSeekingState false
      let f3 := f2.updateTime ctrl'.getCurrentTime
      ⟨⟨f3, ctrl'⟩,
        [Event.seeking t, Event.seeked ctrl'.getCurrentTime], .ok ()⟩

/-- `LoadOptions` accepted by `PlayerCore.load` (spec §6). -/
structure LoadOptions where
  autoplay : Bool := false
  startTime : Option ℚ := none

/-- The `MediaInfo` record `PlayerCore.load` assembles from the metadata
fetch and the `TrackManager` flags (canvas2d.ts lines 141–149). -/
def mediaInfoOf (env : Env) : MediaInfo :=
  ⟨env.duration, env.formatName, env.mimeType, env.tags,
    env.hasVideo, env.hasAudio, env.hasSubtitles⟩

/-- The combined `TrackSwitcher` outcome of one load: the
`setupInitialTracks` result when a primary video or audio track exists,
and the all-unsupported empty-warning default otherwise
(canvas2d.ts lines 162–172). -/
def setupOutcome (env : Env) : TrackSwitchResult :=
  if env.primaryVideoTrack.isSome || env.primaryAudioTrack.isSome then env.setup
  else ⟨"", false, false⟩

/-- The trailing steps of a successful `PlayerCore.load` (canvas2d.ts
lines 194–195): honor `options.autoplay` by awaiting `play()` and
`options.startTime` by awaiting `seek(startTime)`, rethrowing their
failures; `evs` are the events the load emitted so far. -/
def loadTail (env : Env) (opts : LoadOptions) (evs : List Event) (s2 : Sys) : MRes :=
  let stepA : MRes :=
    if opts.autoplay then
      let r := play env s2
      ⟨r.sys, evs ++ r.events, r.result⟩
    else ⟨s2, evs, .ok ()⟩
  match stepA.result with
  | .error e => ⟨stepA.sys, stepA.events, .error e⟩
  | .ok _ =>
    match opts.startTime with
    | none => stepA
    | some t =>
      let r := seek env t stepA.sys
      ⟨r.sys, stepA.events ++ r.events, r.result⟩

/-- The mediaInfo/track pairings consistent with one load against `env`:
the reset defaults, the new `mediaInfo` still paired with the reset empty
track lists, or the new `mediaInfo` paired with the new track lists —
never a cross-load pairing. -/
def mtConsistent (env : Env) (p : PlayerState) : Prop :=
  p.mt = (none, [], [], []) ∨
  p.mt = (some (mediaInfoOf env), [], [], []) ∨
  p.mt = (some (mediaInfoOf env), env.videoTracks, env.audioTracks, env.subtitleTracks)

/-- The `try` body of `PlayerCore.load` (canvas2d.ts lines 120–195),
before the `catch` clause. -/
def loadBody (env : Env) (opts : LoadOptions) (s : Sys) : MRes :=
  let f0 := s.facade.reset.updateLoadingState
  let s0 : Sys := ⟨f0, s.ctrl⟩
  match env.sourceError with
  | some e => ⟨s0, [Event.loadstart], .error e⟩
  | none =>
    if env.inputPresent = false then
      ⟨s0, [Event.loadstart], .error "Failed to create input from source"⟩
    else
      match env.trackInitError with
      | some e => ⟨s0, [Event.loadstart], .error e⟩
      | none =>
        match env.metadataError with
        | some e => ⟨s0, [Event.loadstart], .error e⟩
        | none =>
          let mi := mediaInfoOf env
          let f1 := (((f0.updateDuration env.duration).updateMediaInfo mi).updateTracks
            env.videoTracks env.audioTracks env.subtitleTracks)
          let c1 := s.ctrl.setDuration env.duration
          let res := setupOutcome env
          if res.videoSupported = false ∧ res.audioSupported = false then
            let msg := if res.warningMessage = "" then "No audio or video track found."
              else res.warningMessage
            ⟨⟨f1, c1⟩, [Event.loadstart], .error msg⟩
          else
            let warnEvs := if res.warningMessage = "" then []
              else [Event.warning res.warningMessage.trim]
            let f2 := f1.updateReadyState
            let evs := Event.loadstart :: warnEvs ++
              [Event.loadedmetadata mi, Event.loadeddata, Event.canplay, Event.canplaythrough]
            let s2 : Sys := ⟨f2, c1⟩
            loadTail env opts evs s2

/-- `PlayerCore.load` (canvas2d.ts lines 119–200): the `try` body, with
the `catch` clause running `handleError` on any failure and rethrowing. -/
def load (env : Env) (opts : LoadOptions) (s : Sys) : MRes :=
  let r := loadBody env opts s
  match r.result with
  | .ok _ => r
  | .error e =>
    let (s', evs') := handleError e r.sys
    ⟨s', r.events ++ evs', .error e⟩

/-- `PlayerCore.stop` (canvas2d.ts lines 242–250): pause, then seek to
zero; a failure of the seek step runs through `handleError` once more and
rethrows. -/
def stop (env : Env) (s : Sys) : MRes :=
  let (s1, evs1) := pause s
  let r := seek env 0 s1
  match r.result with
  | .ok _ => ⟨r.sys, evs1 ++ r.events, .ok ()⟩
  | .error e =>
    let (s', evs') := handleError e r.sys
    ⟨s', evs1 ++ r.events ++ evs', .error e⟩

end PlayerCore

/-- A sample environment in which every collaborator succeeds: one
supported video track and one supported audio track, duration 10s. -/
def envOk : Env :=
  { sourceError := none, inputPresent := true, trackInitError := none,
    metadataError := none, duration := 10, formatName := "mp4",
    mimeType := "video/mp4", tags := [], hasVideo := true, hasAudio := true,
    hasSubtitles := false,
    videoTracks := [⟨1, "h264", "en"⟩], audioTracks := [⟨2, "aac", "en"⟩],
    subtitleTracks := [],
    primaryVideoTrack := some ⟨1, "h264", "en"⟩,
    primaryAudioTrack := some ⟨2, "aac", "en"⟩,
    setup := ⟨"", true, true⟩, playError := none, seekError := fun _ => none }

/-- The environment `envOk`, except that the controller rejects every
seek. -/
def envSeekFail : Env := { envOk with seekError := fun _ => some "seek failed" }

/-- The environment `envOk`, except that `TrackManager` reports no primary
video and no primary audio track. -/
def envNoPlayable : Env :=
  { envOk with primaryVideoTrack := none, primaryAudioTrack := none }

/-- A freshly constructed player: idle state, empty notification history. -/
def sysIdle : Sys := ⟨⟨PlayerState.initial, []⟩, ⟨0, 0, false⟩⟩

/-- A player that finished a successful load: ready lifecycle,
duration 10s. -/
def sysReady : Sys :=
  ⟨⟨{ PlayerState.initial with lifecycle := .ready, duration := 10 }, []⟩,
    ⟨0, 10, false⟩⟩

/-! ## Arithmetic facts about the JavaScript rounding used by the renderer -/

theorem jsRound_nonneg {q : ℚ} (h : 0 ≤ q) : 0 ≤ jsRound q := by
  unfold jsRound
  have : (0 : ℚ) ≤ q + 1 / 2 := by linarith
  exact Int.le_floor.mpr (by exact_mod_cast this)

theorem jsRound_le_int {q : ℚ} {n : ℤ} (h : q ≤ (n : ℚ)) : jsRound q ≤ n := by
  unfold jsRound
  rw [Int.floor_le_iff]
  linarith

theorem jsRound_half_le {n : ℤ} (h : 0 ≤ n) : jsRound ((n : ℚ) / 2) ≤ n := by
  unfold jsRound
  rw [Int.floor_le_iff]
  have : (0 : ℚ) ≤ (n : ℚ) := by exact_mod_cast h
  linarith

namespace Canvas2DRenderer

theorem renderRect_destW_eq (sw sh cw ch : ℕ) :
    (renderRect sw sh cw ch).destW =
      jsRound ((sw : ℚ) * min ((cw : ℚ) / (sw : ℚ)) ((ch : ℚ) / (sh : ℚ))) := rfl

theorem renderRect_destH_eq (sw sh cw ch : ℕ) :
    (renderRect sw sh cw ch).destH =
      jsRound ((sh : ℚ) * min ((cw : ℚ) / (sw : ℚ)) ((ch : ℚ) / (sh : ℚ))) := rfl

theorem renderRect_dx_eq (sw sh cw ch : ℕ) :
    (renderRect sw sh cw ch).dx =
      jsRound (((cw : ℚ) - ((renderRect sw sh cw ch).destW : ℚ)) / 2) := rfl

theorem renderRect_dy_eq (sw sh cw ch : ℕ) :
    (renderRect sw sh cw ch).dy =
      jsRound (((ch : ℚ) - ((renderRect sw sh cw ch).destH : ℚ)) / 2) := rfl

/-- Scaling one side by the letterbox scale stays within the matching
canvas side. -/
theorem scaled_side_le (sw sh cw ch : ℕ) (hsw : sw ≠ 0) :
    (sw : ℚ) * min ((cw : ℚ) / (sw : ℚ)) ((ch : ℚ) / (sh : ℚ)) ≤ (cw : ℚ) := by
  have hswq : (0 : ℚ) < (sw : ℚ) := by exact_mod_cast Nat.pos_of_ne_zero hsw
  calc (sw : ℚ) * min ((cw : ℚ) / (sw : ℚ)) ((ch : ℚ) / (sh : ℚ))
      ≤ (sw : ℚ) * ((cw : ℚ) / (sw : ℚ)) :=
        mul_le_mul_of_nonneg_left (min_le_left _ _) (le_of_lt hswq)
    _ = (cw : ℚ) := by field_simp

/-- Bounds on the letterbox rectangle: non-negative extents, and the
rectangle fits inside the canvas. -/
theorem renderRect_bounds (sw sh cw ch : ℕ) (hsw : sw ≠ 0) (hsh : sh ≠ 0) :
    0 ≤ (renderRect sw sh cw ch).destW ∧ 0 ≤ (renderRect sw sh cw ch).destH ∧
    0 ≤ (renderRect sw sh cw ch).dx ∧ 0 ≤ (renderRect sw sh cw ch).dy ∧
    (renderRect sw sh cw ch).dx + (renderRect sw sh cw ch).destW ≤ (cw : ℤ) ∧
    (renderRect sw sh cw ch).dy + (renderRect sw sh cw ch).destH ≤ (ch : ℤ) := by
  have hswq : (0 : ℚ) < (sw : ℚ) := by exact_mod_cast Nat.pos_of_ne_zero hsw
  have hshq : (0 : ℚ) < (sh : ℚ) := by exact_mod_cast Nat.pos_of_ne_zero hsh
  have hscale : (0 : ℚ) ≤ min ((cw : ℚ) / (sw : ℚ)) ((ch : ℚ) / (sh : ℚ)) :=
    le_min (by positivity) (by positivity)
  have hWq : (sw : ℚ) * min ((cw : ℚ) / (sw : ℚ)) ((ch : ℚ) / (sh : ℚ)) ≤ ((cw : ℤ) : ℚ) := by
    push_cast; exact scaled_side_le sw sh cw ch hsw
  have hHq : (sh : ℚ) * min ((cw : ℚ) / (sw : ℚ)) ((ch : ℚ) / (sh : ℚ)) ≤ ((ch : ℤ) : ℚ) := by
    push_cast
    have hswap :
        (sh : ℚ) * min ((ch : ℚ) / (sh : ℚ)) ((cw : ℚ) / (sw : ℚ)) ≤ (ch : ℚ) :=
      scaled_side_le sh sw ch cw hsh
    rwa [min_comm] at hswap
  have hW0 : 0 ≤ (renderRect sw sh cw ch).destW :=
    jsRound_nonneg (by positivity)
  have hH0 : 0 ≤ (renderRect sw sh cw ch).destH :=
    jsRound_nonneg (by positivity)
  have hWle : (renderRect sw sh cw ch).destW ≤ (cw : ℤ) := jsRound_le_int hWq
  have hHle : (renderRect sw sh cw ch).destH ≤ (ch : ℤ) := jsRound_le_int hHq
  have hdxcast : ((cw : ℚ) - ((renderRect sw sh cw ch).destW : ℚ)) / 2 =
      ((((cw : ℤ) - (renderRect sw sh cw ch).destW : ℤ) : ℚ)) / 2 := by push_cast; ring
  have hdycast : ((ch : ℚ) - ((renderRect sw sh cw ch).destH : ℚ)) / 2 =
      ((((ch : ℤ) - (renderRect sw sh cw ch).destH : ℤ) : ℚ)) / 2 := by push_cast; ring
  have hdx0 : 0 ≤ (renderRect sw sh cw ch).dx := by
    rw [renderRect_dx_eq]
    refine jsRound_nonneg ?_
    have : ((renderRect sw sh cw ch).destW : ℚ) ≤ ((cw : ℤ) : ℚ) := by exact_mod_cast hWle
    push_cast at this ⊢
    linarith
  have hdy0 : 0 ≤ (renderRect sw sh cw ch).dy := by
    rw [renderRect_dy_eq]
    refine jsRound_nonneg ?_
    have : ((renderRect sw sh cw ch).destH : ℚ) ≤ ((ch : ℤ) : ℚ) := by exact_mod_cast hHle
    push_cast at this ⊢
    linarith
  have hdxle : (renderRect sw sh cw ch).dx ≤ (cw : ℤ) - (renderRect sw sh cw ch).destW := by
    rw [renderRect_dx_eq, hdxcast]
    exact jsRound_half_le (by omega)
  have hdyle : (renderRect sw sh cw ch).dy ≤ (ch : ℤ) - (renderRect sw sh cw ch).destH := by
    rw [renderRect_dy_eq, hdycast]
    exact jsRound_half_le (by omega)
  exact ⟨hW0, hH0, hdx0, hdy0, by omega, by omega⟩

/-- C9: `Canvas2DRenderer.render` is total and never draws when the
renderer is unready (uninitialized, disposed, or context absent) or when
the source or destination canvas has a zero dimension; in each of those
cases it returns `false` without issuing a draw, and it returns `true`
exactly when it issued a draw command. -/
theorem render_guards (r : RendererState) (source : Canvas) (drawFails : Bool) :
    ((isReady r = false ∨ source.width = 0 ∨ source.height = 0 ∨
        r.canvas.width = 0 ∨ r.canvas.height = 0) →
      render r source drawFails = (false, none)) ∧
    (render (dispose r) source drawFails = (false, none)) ∧
    ((render r source drawFails).1 = true ↔ ((render r source drawFails).2).isSome) := by
  refine ⟨?_, ?_, ?_⟩
  · intro h
    unfold render
    split
    · rfl
    · split
      · rfl
      · split
        · rfl
        · split
          · rfl
          · exfalso
            simp_all
  · simp [render, isReady, dispose]
  · unfold render
    split
    · simp
    · split
      · simp
      · split
        · simp
        · split
          · simp
          · simp

/-- C9 witness: a renderer whose canvas width is zero returns `(false, none)`. -/
theorem render_guards_witness :
    render ⟨⟨0, 9⟩, true, true⟩ ⟨4, 3⟩ false = (false, none) :=
  (render_guards ⟨⟨0, 9⟩, true, true⟩ ⟨4, 3⟩ false).1 (by decide)

/-- C10: whenever `Canvas2DRenderer.render` returns `true`, the destination
rectangle scales both source extents by
`min(canvasWidth/sourceWidth, canvasHeight/sourceHeight)` (preserving the
source aspect up to integer rounding), is centered
(`dx = round((canvasWidth-destW)/2)`, `dy = round((canvasHeight-destH)/2)`),
and fits entirely within the canvas
(`dx ≥ 0`, `dy ≥ 0`, `dx+destW ≤ canvasWidth`, `dy+destH ≤ canvasHeight`). -/
theorem render_letterbox_bounds
    (r : RendererState) (source : Canvas) (drawFails : Bool) (d : Draw)
    (h : render r source drawFails = (true, some d)) :
    d.destW = jsRound ((source.width : ℚ) *
        min ((r.canvas.width : ℚ) / (source.width : ℚ))
          ((r.canvas.height : ℚ) / (source.height : ℚ))) ∧
    d.destH = jsRound ((source.height : ℚ) *
        min ((r.canvas.width : ℚ) / (source.width : ℚ))
          ((r.canvas.height : ℚ) / (source.height : ℚ))) ∧
    d.dx = jsRound (((r.canvas.width : ℚ) - (d.destW : ℚ)) / 2) ∧
    d.dy = jsRound (((r.canvas.height : ℚ) - (d.destH : ℚ)) / 2) ∧
    0 ≤ d.dx ∧ 0 ≤ d.dy ∧
    d.dx + d.destW ≤ (r.canvas.width : ℤ) ∧
    d.dy + d.destH ≤ (r.canvas.height : ℤ) := by
  unfold render at h
  split at h
  · simp at h
  · split at h
    · simp at h
    · split at h
      · simp at h
      · split at h
        · simp at h
        · rename_i hready hsrc hcanvas hdraw
          have hd : d = renderRect source.width source.height r.canvas.width r.canvas.height := by
            simpa using h.symm
          subst hd
          push_neg at hsrc
          obtain ⟨hsw, hsh⟩ := hsrc
          obtain ⟨_, _, b3, b4, b5, b6⟩ :=
            renderRect_bounds source.width source.height r.canvas.width r.canvas.height hsw hsh
          exact ⟨renderRect_destW_eq _ _ _ _, renderRect_destH_eq _ _ _ _,
            renderRect_dx_eq _ _ _ _, renderRect_dy_eq _ _ _ _, b3, b4, b5, b6⟩

/-- C10 witness: a 4×3 source on a 16×9 canvas draws a centered 12×9
rectangle at `(2, 0)`, inside the canvas. -/
theorem render_letterbox_bounds_witness :
    0 ≤ (Draw.mk 2 0 12 9).dx ∧ 0 ≤ (Draw.mk 2 0 12 9).dy ∧
    (Draw.mk 2 0 12 9).dx + (Draw.mk 2 0 12 9).destW ≤ (16 : ℤ) ∧
    (Draw.mk 2 0 12 9).dy + (Draw.mk 2 0 12 9).destH ≤ (9 : ℤ) :=
  (render_letterbox_bounds ⟨⟨16, 9⟩, true, true⟩ ⟨4, 3⟩ false ⟨2, 0, 12, 9⟩
    (by norm_num [render, isReady, renderRect, jsRound])).2.2.2.2

end Canvas2DRenderer

/-! ## PlayerCore claims -/

/-- C5: `pause()` is synchronous and total for every player state: it
delegates to the `PlaybackController` (which stops the clock and never
fails, spec §4.3), sets `isPlaying := false`, emits exactly one `pause`
event, and never engages the error channel — the recorded error is
untouched and no `error` event is emitted. -/
theorem PlayerCore.pause_total (s : Sys) :
    (PlayerCore.pause s).1.facade.cur.isPlaying = false ∧
    (PlayerCore.pause s).1.ctrl = s.ctrl.doPause ∧
    (PlayerCore.pause s).2 = [Event.pause] ∧
    (PlayerCore.pause s).1.facade.cur.error = s.facade.cur.error ∧
    (PlayerCore.pause s).1.facade.cur.lifecycle = s.facade.cur.lifecycle :=
  ⟨rfl, rfl, rfl, rfl, rfl⟩

/-- C2: while the lifecycle is `idle`, both `play()` and `seek(t)` reject
with the `No media loaded` error, and neither rejected call changes the
`isPlaying` or `currentTime` fields of the player state. -/
theorem PlayerCore.idle_play_seek_reject (env : Env) (t : ℚ) (s : Sys)
    (h : s.facade.cur.lifecycle = .idle) :
    (PlayerCore.play env s).result = .error "No media loaded" ∧
    (PlayerCore.play env s).sys.facade.cur.isPlaying = s.facade.cur.isPlaying ∧
    (PlayerCore.play env s).sys.facade.cur.currentTime = s.facade.cur.currentTime ∧
    (PlayerCore.seek env t s).result = .error "No media loaded" ∧
    (PlayerCore.seek env t s).sys.facade.cur.isPlaying = s.facade.cur.isPlaying ∧
    (PlayerCore.seek env t s).sys.facade.cur.currentTime = s.facade.cur.currentTime := by
  unfold PlayerCore.play PlayerCore.seek PlayerCore.handleError
  simp [h, StateFacade.updateError, StateFacade.updateSeekingState, StateFacade.set]

/-- C2 witness: on a fresh idle player, `play()` and `seek 5` both reject
and leave `isPlaying`/`currentTime` untouched. -/
theorem idle_play_seek_reject_witness :
    (PlayerCore.play envOk sysIdle).result = .error "No media loaded" ∧
    (PlayerCore.play envOk sysIdle).sys.facade.cur.isPlaying = sysIdle.facade.cur.isPlaying ∧
    (PlayerCore.play envOk sysIdle).sys.facade.cur.currentTime = sysIdle.facade.cur.currentTime ∧
    (PlayerCore.seek envOk 5 sysIdle).result = .error "No media loaded" ∧
    (PlayerCore.seek envOk 5 sysIdle).sys.facade.cur.isPlaying = sysIdle.facade.cur.isPlaying ∧
    (PlayerCore.seek envOk 5 sysIdle).sys.facade.cur.currentTime = sysIdle.facade.cur.currentTime :=
  PlayerCore.idle_play_seek_reject envOk 5 sysIdle rfl

/-- C7: every successful `seek(time)` leaves the controller at its
post-seek position, writes exactly that authoritative position (not the
requested time) into `currentTime`, and emits `seeked` carrying that same
value. -/
theorem PlayerCore.seek_success_authoritative (env : Env) (t : ℚ) (s : Sys)
    (h : (PlayerCore.seek env t s).result = .ok ()) :
    (PlayerCore.seek env t s).sys.ctrl = s.ctrl.doSeek t ∧
    (PlayerCore.seek env t s).sys.facade.cur.currentTime = (s.ctrl.doSeek t).getCurrentTime ∧
    (PlayerCore.seek env t s).events =
      [Event.seeking t, Event.seeked (s.ctrl.doSeek t).getCurrentTime] := by
  unfold PlayerCore.seek at h ⊢
  by_cases hidle : s.facade.cur.lifecycle = .idle
  · simp only [if_pos hidle] at h
    simp [PlayerCore.handleError] at h
  · simp only [if_neg hidle] at h ⊢
    cases hse : env.seekError t with
    | some e =>
      simp only [hse] at h
      simp [PlayerCore.handleError] at h
    | none =>
      simp only [hse]
      simp [StateFacade.updateTime, StateFacade.updateSeekingState, StateFacade.set,
        Ctrl.getCurrentTime]

/-- C7 witness: seeking to 20 on a 10s-long medium snaps to the
authoritative position 10, which is what both `currentTime` and the
`seeked` payload report. -/
theorem seek_success_authoritative_witness :
    ((PlayerCore.seek envOk 20 sysReady).sys.ctrl = sysReady.ctrl.doSeek 20 ∧
      (PlayerCore.seek envOk 20 sysReady).sys.facade.cur.currentTime =
        (sysReady.ctrl.doSeek 20).getCurrentTime ∧
      (PlayerCore.seek envOk 20 sysReady).events =
        [Event.seeking 20, Event.seeked (sysReady.ctrl.doSeek 20).getCurrentTime]) ∧
    (sysReady.ctrl.doSeek 20).getCurrentTime = 10 :=
  ⟨PlayerCore.seek_success_authoritative envOk 20 sysReady (by rfl), by decide⟩

/-- C6: every failed `seek` — idle rejection or controller failure —
clears the seeking flag before the error is recorded: the notification
snapshots appended by the failed call carry the lifecycles
`[idle, error]` (idle rejection: the flag-clearing setter runs first, on a
non-seeking state, then the error write) or `[seeking, ready, error]`
(controller failure: the seeking lifecycle is exited before the error
write), and the final state never shows `seeking`. -/
theorem PlayerCore.seek_failure_clears_seeking (env : Env) (t : ℚ) (s : Sys) (e : String)
    (h : (PlayerCore.seek env t s).result = .error e) :
    (PlayerCore.seek env t s).sys.facade.cur.lifecycle = .error ∧
    ((s.facade.cur.lifecycle = .idle ∧
        ((PlayerCore.seek env t s).sys.facade.hist.drop s.facade.hist.length).map
          PlayerState.lifecycle = [.idle, .error]) ∨
      ((PlayerCore.seek env t s).sys.facade.hist.drop s.facade.hist.length).map
          PlayerState.lifecycle = [.seeking, .ready, .error]) := by
  unfold PlayerCore.seek
  by_cases hidle : s.facade.cur.lifecycle = .idle
  · simp only [if_pos hidle]
    refine ⟨rfl, Or.inl ⟨hidle, ?_⟩⟩
    simp [PlayerCore.handleError, StateFacade.updateError, StateFacade.updateSeekingState,
      StateFacade.set, hidle, List.append_assoc, List.drop_left]
  · simp only [if_neg hidle]
    unfold PlayerCore.seek at h
    simp only [if_neg hidle] at h
    cases hse : env.seekError t with
    | none => simp only [hse] at h; simp at h
    | some e' =>
      simp only [hse]
      refine ⟨rfl, Or.inr ?_⟩
      simp [PlayerCore.handleError, StateFacade.updateError, StateFacade.updateSeekingState,
        StateFacade.set, List.append_assoc, List.drop_left]

/-- C6 witness: a controller-failing seek at 5 on a ready player appends
exactly the snapshots `seeking`, `ready`, `error` and ends in the `error`
lifecycle. -/
theorem seek_failure_clears_seeking_witness :
    (PlayerCore.seek envSeekFail 5 sysReady).sys.facade.cur.lifecycle = .error ∧
    ((sysReady.facade.cur.lifecycle = .idle ∧
        ((PlayerCore.seek envSeekFail 5 sysReady).sys.facade.hist.drop
            sysReady.facade.hist.length).map PlayerState.lifecycle = [.idle, .error]) ∨
      ((PlayerCore.seek envSeekFail 5 sysReady).sys.facade.hist.drop
          sysReady.facade.hist.length).map PlayerState.lifecycle =
        [.seeking, .ready, .error]) :=
  PlayerCore.seek_failure_clears_seeking envSeekFail 5 sysReady "seek failed" (by rfl)

/-- C8: from any post-load state (lifecycle not `idle`, covering ready,
seeking and mid-playing states), `stop()` on success leaves
`isPlaying = false` and `currentTime = 0` — the controller's seek-to-zero
clamps into `[0, duration]`, landing at 0 — and when the internal
seek-to-zero step fails, `stop()` rejects with exactly that error. -/
theorem PlayerCore.stop_resets (env : Env) (s : Sys)
    (hidle : s.facade.cur.lifecycle ≠ .idle) :
    (env.seekError 0 = none →
      (PlayerCore.stop env s).result = .ok () ∧
      (PlayerCore.stop env s).sys.facade.cur.isPlaying = false ∧
      (PlayerCore.stop env s).sys.facade.cur.currentTime = 0) ∧
    (∀ e, env.seekError 0 = some e → (PlayerCore.stop env s).result = .error e) := by
  have hzero : (Ctrl.doSeek 0 (s.ctrl.doPause)).getCurrentTime = 0 := by
    simp [Ctrl.doSeek, Ctrl.doPause, Ctrl.getCurrentTime]
  constructor
  · intro hok
    unfold PlayerCore.stop PlayerCore.seek PlayerCore.pause
    simp only [StateFacade.updatePlaybackState, StateFacade.set]
    simp only [if_neg hidle]
    simp only [hok]
    simp [StateFacade.updateTime, StateFacade.updateSeekingState, StateFacade.set, hzero]
  · intro e he
    unfold PlayerCore.stop PlayerCore.seek PlayerCore.pause
    simp only [StateFacade.updatePlaybackState, StateFacade.set]
    simp only [if_neg hidle]
    simp only [he]

/-- C8 witness: stopping the ready 10s player succeeds and leaves
`isPlaying = false`, `currentTime = 0`. -/
theorem stop_resets_witness :
    (PlayerCore.stop envOk sysReady).result = .ok () ∧
    (PlayerCore.stop envOk sysReady).sys.facade.cur.isPlaying = false ∧
    (PlayerCore.stop envOk sysReady).sys.facade.cur.currentTime = 0 :=
  (PlayerCore.stop_resets envOk sysReady (by decide)).1 rfl

/-! ## Helper lemmas about `load`

These unpack the branch structure of `load`/`loadBody`/`loadTail`; the
claim theorems below build on them. -/

/-- A `load` that resolves is exactly its `try` body (the `catch` clause
did not run). -/
theorem PlayerCore.load_ok_eq (env : Env) (opts : LoadOptions) (s : Sys)
    (h : (PlayerCore.load env opts s).result = .ok ()) :
    PlayerCore.load env opts s = PlayerCore.loadBody env opts s := by
  unfold PlayerCore.load at h ⊢
  cases hb : (PlayerCore.loadBody env opts s).result with
  | ok u => simp only [hb]
  | error e => simp only [hb] at h; simp at h

/-- A successful `play` emits exactly `play` then `playing`. -/
theorem PlayerCore.play_ok_events (env : Env) (s : Sys)
    (h : (PlayerCore.play env s).result = .ok ()) :
    (PlayerCore.play env s).events = [Event.play, Event.playing] := by
  unfold PlayerCore.play at h ⊢
  by_cases hidle : s.facade.cur.lifecycle = .idle
  · simp only [if_pos hidle] at h
    simp [PlayerCore.handleError] at h
  · simp only [if_neg hidle] at h ⊢
    cases hp : env.playError with
    | some e => simp only [hp] at h; simp [PlayerCore.handleError] at h
    | none => simp only [hp]

/-- A successful `seek` emits exactly `seeking` then `seeked`. -/
theorem PlayerCore.seek_ok_events (env : Env) (t : ℚ) (s : Sys)
    (h : (PlayerCore.seek env t s).result = .ok ()) :
    (PlayerCore.seek env t s).events =
      [Event.seeking t, Event.seeked ((s.ctrl.doSeek t).getCurrentTime)] := by
  unfold PlayerCore.seek at h ⊢
  by_cases hidle : s.facade.cur.lifecycle = .idle
  · simp only [if_pos hidle] at h
    simp [PlayerCore.handleError] at h
  · simp only [if_neg hidle] at h ⊢
    cases hse : env.seekError t with
    | some e => simp only [hse] at h; simp [PlayerCore.handleError] at h
    | none => simp only [hse]

/-- When the autoplay/startTime tail of a load succeeds, it only appends
transport events (`play`, `playing`, `seeking`, `seeked`) after the events
already emitted. -/
theorem PlayerCore.loadTail_ok_events (env : Env) (opts : LoadOptions)
    (evs : List Event) (s2 : Sys)
    (h : (PlayerCore.loadTail env opts evs s2).result = .ok ()) :
    ∃ rest, (PlayerCore.loadTail env opts evs s2).events = evs ++ rest ∧
      ∀ ev ∈ rest, ev.name = EventName.play ∨ ev.name = EventName.playing ∨
        ev.name = EventName.seeking ∨ ev.name = EventName.seeked := by
  unfold PlayerCore.loadTail at h ⊢
  by_cases hauto : opts.autoplay = true
  · simp only [if_pos hauto] at h ⊢
    cases hplay : (PlayerCore.play env s2).result with
    | error e => simp only [hplay] at h; simp at h
    | ok u =>
      cases u
      have hpe := PlayerCore.play_ok_events env s2 hplay
      simp only [hplay] at h ⊢
      cases hst : opts.startTime with
      | none =>
        simp only [hst]
        exact ⟨(PlayerCore.play env s2).events, rfl, by
          rw [hpe]; intro ev hev
          fin_cases hev <;> simp [Event.name]⟩
      | some t =>
        simp only [hst] at h ⊢
        cases hs : (PlayerCore.seek env t (PlayerCore.play env s2).sys).result with
        | error e => simp only [hs] at h; simp at h
        | ok u2 =>
          cases u2
          have hse := PlayerCore.seek_ok_events env t (PlayerCore.play env s2).sys hs
          refine ⟨(PlayerCore.play env s2).events ++
            (PlayerCore.seek env t (PlayerCore.play env s2).sys).events,
            by simp [List.append_assoc], ?_⟩
          rw [hpe, hse]
          intro ev hev
          fin_cases hev <;> simp [Event.name]
  · simp only [if_neg hauto] at h ⊢
    cases hst : opts.startTime with
    | none =>
      simp only [hst]
      exact ⟨[], by simp, by intro ev hev; simp at hev⟩
    | some t =>
      simp only [hst] at h ⊢
      cases hs : (PlayerCore.seek env t s2).result with
      | error e => simp only [hs] at h; simp at h
      | ok u2 =>
        cases u2
        have hse := PlayerCore.seek_ok_events env t s2 hs
        refine ⟨(PlayerCore.seek env t s2).events, rfl, ?_⟩
        rw [hse]
        intro ev hev
        fin_cases hev <;> simp [Event.name]

/-- C3: every successful `load()` emits the exact subsequence
`loadstart, loadedmetadata, loadeddata, canplay, canplaythrough` in that
fixed order, and no `error` event appears anywhere among the events of the
call. -/
theorem PlayerCore.load_success_event_order (env : Env) (opts : LoadOptions) (s : Sys)
    (h : (PlayerCore.load env opts s).result = .ok ()) :
    List.Sublist
      [EventName.loadstart, EventName.loadedmetadata, EventName.loadeddata,
        EventName.canplay, EventName.canplaythrough]
      ((PlayerCore.load env opts s).events.map Event.name) ∧
    ∀ ev ∈ (PlayerCore.load env opts s).events, ev.name ≠ EventName.error := by
  have heq := PlayerCore.load_ok_eq env opts s h
  rw [heq] at h ⊢
  clear heq
  unfold PlayerCore.loadBody at h ⊢
  cases hsrc : env.sourceError with
  | some e => simp only [hsrc] at h; simp at h
  | none =>
    simp only [hsrc] at h ⊢
    by_cases hinp : env.inputPresent = false
    · simp only [if_pos hinp] at h; simp at h
    · simp only [if_neg hinp] at h ⊢
      cases htr : env.trackInitError with
      | some e => simp only [htr] at h; simp at h
      | none =>
        simp only [htr] at h ⊢
        cases hmeta : env.metadataError with
        | some e => simp only [hmeta] at h; simp at h
        | none =>
          simp only [hmeta] at h ⊢
          by_cases hsup : (PlayerCore.setupOutcome env).videoSupported = false ∧
              (PlayerCore.setupOutcome env).audioSupported = false
          · simp only [if_pos hsup] at h; simp at h
          · simp only [if_neg hsup] at h ⊢
            by_cases hw : (PlayerCore.setupOutcome env).warningMessage = ""
            · simp only [if_pos hw] at h ⊢
              obtain ⟨rest, hrest, hnames⟩ := PlayerCore.loadTail_ok_events env opts _ _ h
              rw [hrest]
              constructor
              · simp only [List.map_cons, List.map_append, List.nil_append, Event.name]
                exact List.Sublist.cons₂ _ (List.sublist_append_left _ _)
              · intro ev hev
                rcases List.mem_append.mp hev with h1 | h1
                · fin_cases h1 <;> simp [Event.name]
                · rcases hnames ev h1 with h2 | h2 | h2 | h2 <;> simp [h2]
            · simp only [if_neg hw] at h ⊢
              obtain ⟨rest, hrest, hnames⟩ := PlayerCore.loadTail_ok_events env opts _ _ h
              rw [hrest]
              constructor
              · simp only [List.map_cons, List.map_append, List.cons_append,
                  List.nil_append, Event.name]
                exact List.Sublist.cons₂ _
                  (List.Sublist.cons _ (List.sublist_append_left _ _))
              · intro ev hev
                rcases List.mem_append.mp hev with h1 | h1
                · fin_cases h1 <;> simp [Event.name]
                · rcases hnames ev h1 with h2 | h2 | h2 | h2 <;> simp [h2]

/-- C3 witness: a fully successful load with autoplay and a start time
emits `loadstart, loadedmetadata, loadeddata, canplay, canplaythrough,
play, playing, seeking, seeked` — the required subsequence, no `error`. -/
theorem load_success_event_order_witness :
    List.Sublist
      [EventName.loadstart, EventName.loadedmetadata, EventName.loadeddata,
        EventName.canplay, EventName.canplaythrough]
      ((PlayerCore.load envOk { autoplay := true, startTime := some 3 } sysIdle).events.map
        Event.name) ∧
    ∀ ev ∈ (PlayerCore.load envOk { autoplay := true, startTime := some 3 } sysIdle).events,
      ev.name ≠ EventName.error :=
  PlayerCore.load_success_event_order envOk { autoplay := true, startTime := some 3 } sysIdle
    (by rfl)

/-- C1: when the load pipeline reaches track selection (source, input,
track initialization and metadata all succeed) and TrackSwitcher reports
neither video nor audio supported — including the case where both primary
tracks are absent — `load()` rejects with an error carrying the
TrackSwitcher warning text when it is non-empty and the default
`No audio or video track found.` message otherwise, emitting the matching
`error` event; the lifecycle becomes `error`, the `mediaInfo` committed
earlier in that load remains in state, and `isPlaying` stays `false`. -/
theorem PlayerCore.load_no_playable_track (env : Env) (opts : LoadOptions) (s : Sys)
    (hsrc : env.sourceError = none) (hinp : env.inputPresent = true)
    (htr : env.trackInitError = none) (hmeta : env.metadataError = none)
    (hv : (PlayerCore.setupOutcome env).videoSupported = false)
    (ha : (PlayerCore.setupOutcome env).audioSupported = false) :
    (PlayerCore.load env opts s).result =
      .error (if (PlayerCore.setupOutcome env).warningMessage = ""
        then "No audio or video track found."
        else (PlayerCore.setupOutcome env).warningMessage) ∧
    (PlayerCore.load env opts s).events =
      [Event.loadstart,
        Event.error (if (PlayerCore.setupOutcome env).warningMessage = ""
          then "No audio or video track found."
          else (PlayerCore.setupOutcome env).warningMessage)] ∧
    (PlayerCore.load env opts s).sys.facade.cur.lifecycle = .error ∧
    (PlayerCore.load env opts s).sys.facade.cur.mediaInfo =
      some (PlayerCore.mediaInfoOf env) ∧
    (PlayerCore.load env opts s).sys.facade.cur.isPlaying = false := by
  unfold PlayerCore.load PlayerCore.loadBody
  simp only [hsrc, hinp, htr, hmeta, hv, ha]
  simp [PlayerCore.handleError, StateFacade.updateError, StateFacade.updateMediaInfo,
    StateFacade.updateTracks, StateFacade.updateDuration, StateFacade.set,
    StateFacade.reset, StateFacade.updateLoadingState, PlayerState.initial]

/-- C1 witness: when both primary tracks are absent, the load rejects with
the default message, ends in the `error` lifecycle with the committed
`mediaInfo` still visible, and `isPlaying` false. -/
theorem load_no_playable_track_witness :
    (PlayerCore.load envNoPlayable {} sysIdle).result =
      .error (if (PlayerCore.setupOutcome envNoPlayable).warningMessage = ""
        then "No audio or video track found."
        else (PlayerCore.setupOutcome envNoPlayable).warningMessage) ∧
    (PlayerCore.load envNoPlayable {} sysIdle).events =
      [Event.loadstart,
        Event.error (if (PlayerCore.setupOutcome envNoPlayable).warningMessage = ""
          then "No audio or video track found."
          else (PlayerCore.setupOutcome envNoPlayable).warningMessage)] ∧
    (PlayerCore.load envNoPlayable {} sysIdle).sys.facade.cur.lifecycle = .error ∧
    (PlayerCore.load envNoPlayable {} sysIdle).sys.facade.cur.mediaInfo =
      some (PlayerCore.mediaInfoOf envNoPlayable) ∧
    (PlayerCore.load envNoPlayable {} sysIdle).sys.facade.cur.isPlaying = false :=
  PlayerCore.load_no_playable_track envNoPlayable {} sysIdle rfl rfl rfl rfl rfl rfl

/-- `play` never touches the `mediaInfo`/track facets: not in the final
state and not in any notification snapshot it appends. -/
theorem PlayerCore.play_mt (env : Env) (s : Sys) :
    (PlayerCore.play env s).sys.facade.cur.mt = s.facade.cur.mt ∧
    ∃ d, (PlayerCore.play env s).sys.facade.hist = s.facade.hist ++ d ∧
      ∀ p ∈ d, p.mt = s.facade.cur.mt := by
  unfold PlayerCore.play
  by_cases hidle : s.facade.cur.lifecycle = .idle
  · simp only [if_pos hidle, PlayerCore.handleError, StateFacade.updateError, StateFacade.set]
    exact ⟨rfl, _, rfl, by intro p hp; simp at hp; subst hp; rfl⟩
  · simp only [if_neg hidle]
    cases hp : env.playError with
    | some e =>
      simp only [PlayerCore.handleError, StateFacade.updateError, StateFacade.set]
      exact ⟨rfl, _, rfl, by intro p hp; simp at hp; subst hp; rfl⟩
    | none =>
      simp only [StateFacade.updatePlaybackState, StateFacade.set]
      exact ⟨rfl, _, rfl, by intro p hp; simp at hp; subst hp; rfl⟩

/-- `seek` never touches the `mediaInfo`/track facets: not in the final
state and not in any notification snapshot it appends. -/
theorem PlayerCore.seek_mt (env : Env) (t : ℚ) (s : Sys) :
    (PlayerCore.seek env t s).sys.facade.cur.mt = s.facade.cur.mt ∧
    ∃ d, (PlayerCore.seek env t s).sys.facade.hist = s.facade.hist ++ d ∧
      ∀ p ∈ d, p.mt = s.facade.cur.mt := by
  unfold PlayerCore.seek
  by_cases hidle : s.facade.cur.lifecycle = .idle
  · simp only [if_pos hidle, PlayerCore.handleError, StateFacade.updateError,
      StateFacade.updateSeekingState, StateFacade.set, List.append_assoc]
    refine ⟨rfl, _, rfl, ?_⟩
    intro p hp
    simp at hp
    rcases hp with hp | hp <;> subst hp <;> rfl
  · simp only [if_neg hidle]
    cases hse : env.seekError t with
    | some e =>
      simp only [PlayerCore.handleError, StateFacade.updateError,
        StateFacade.updateSeekingState, StateFacade.set, List.append_assoc]
      refine ⟨rfl, _, rfl, ?_⟩
      intro p hp
      simp at hp
      rcases hp with hp | hp | hp <;> subst hp <;> rfl
    | none =>
      simp only [StateFacade.updateTime, StateFacade.updateSeekingState,
        StateFacade.set, List.append_assoc]
      refine ⟨rfl, _, rfl, ?_⟩
      intro p hp
      simp at hp
      rcases hp with hp | hp | hp <;> subst hp <;> rfl

/-- The autoplay/startTime tail of a load never touches the
`mediaInfo`/track facets either. -/
theorem PlayerCore.loadTail_mt (env : Env) (opts : LoadOptions) (evs : List Event) (s2 : Sys) :
    (PlayerCore.loadTail env opts evs s2).sys.facade.cur.mt = s2.facade.cur.mt ∧
    ∃ d, (PlayerCore.loadTail env opts evs s2).sys.facade.hist = s2.facade.hist ++ d ∧
      ∀ p ∈ d, p.mt = s2.facade.cur.mt := by
  unfold PlayerCore.loadTail
  by_cases hauto : opts.autoplay = true
  · simp only [if_pos hauto]
    obtain ⟨hc1, d1, hh1, hd1⟩ := PlayerCore.play_mt env s2
    cases hplay : (PlayerCore.play env s2).result with
    | error e =>
      simp only [hplay]
      exact ⟨hc1, d1, hh1, hd1⟩
    | ok u =>
      cases u
      simp only [hplay]
      cases hst : opts.startTime with
      | none => exact ⟨hc1, d1, hh1, hd1⟩
      | some t =>
        obtain ⟨hc2, d2, hh2, hd2⟩ := PlayerCore.seek_mt env t (PlayerCore.play env s2).sys
        refine ⟨by rw [hc2, hc1], d1 ++ d2, ?_, ?_⟩
        · rw [hh2, hh1, List.append_assoc]
        · intro p hp
          rcases List.mem_append.mp hp with hp | hp
          · exact hd1 p hp
          · rw [hd2 p hp, hc1]
  · simp only [if_neg hauto]
    cases hst : opts.startTime with
    | none =>
      simp only [hst]
      refine ⟨by first | rfl | simp, [], by simp, ?_⟩
      intro p hp
      simp at hp
    | some t =>
      simp only [hst]
      exact PlayerCore.seek_mt env t s2

/-- Extension form of the previous lemma: whatever consistent snapshots a
load has appended before its tail runs stay consistent through the tail. -/
theorem PlayerCore.loadTail_hist_ext (env : Env) (opts : LoadOptions) (evs : List Event)
    (s2 : Sys) (pre : List PlayerState) (d0 : List PlayerState)
    (h2 : s2.facade.hist = pre ++ d0)
    (hP : ∀ p ∈ d0, PlayerCore.mtConsistent env p)
    (hcur : PlayerCore.mtConsistent env s2.facade.cur) :
    PlayerCore.mtConsistent env (PlayerCore.loadTail env opts evs s2).sys.facade.cur ∧
    ∃ d, (PlayerCore.loadTail env opts evs s2).sys.facade.hist = pre ++ d ∧
      ∀ p ∈ d, PlayerCore.mtConsistent env p := by
  obtain ⟨hc, d, hh, hd⟩ := PlayerCore.loadTail_mt env opts evs s2
  refine ⟨by unfold PlayerCore.mtConsistent at hcur ⊢; rw [hc]; exact hcur,
    d0 ++ d, by rw [hh, h2, List.append_assoc], ?_⟩
  intro p hp
  rcases List.mem_append.mp hp with hp | hp
  · exact hP p hp
  · unfold PlayerCore.mtConsistent at hcur ⊢
    rw [hd p hp]
    exact hcur

/-- Every notification snapshot appended by the `try` body of a load, and
its final state, pairs `mediaInfo` and tracks consistently. -/
theorem PlayerCore.loadBody_mt (env : Env) (opts : LoadOptions) (s : Sys) :
    PlayerCore.mtConsistent env (PlayerCore.loadBody env opts s).sys.facade.cur ∧
    ∃ d, (PlayerCore.loadBody env opts s).sys.facade.hist = s.facade.hist ++ d ∧
      ∀ p ∈ d, PlayerCore.mtConsistent env p := by
  unfold PlayerCore.loadBody
  cases hsrc : env.sourceError with
  | some e =>
    simp only [hsrc, StateFacade.reset, StateFacade.updateLoadingState, StateFacade.set,
      List.append_assoc, List.singleton_append, List.cons_append, List.nil_append]
    refine ⟨?_, _, rfl, ?_⟩
    · simp [PlayerCore.mtConsistent, PlayerState.mt, PlayerState.initial]
    · intro p hp
      fin_cases hp <;> simp [PlayerCore.mtConsistent, PlayerState.mt, PlayerState.initial]
  | none =>
    simp only [hsrc]
    by_cases hinp : env.inputPresent = false
    · simp only [if_pos hinp, StateFacade.reset, StateFacade.updateLoadingState,
        StateFacade.set, List.append_assoc, List.singleton_append, List.cons_append,
        List.nil_append]
      refine ⟨?_, _, rfl, ?_⟩
      · simp [PlayerCore.mtConsistent, PlayerState.mt, PlayerState.initial]
      · intro p hp
        fin_cases hp <;> simp [PlayerCore.mtConsistent, PlayerState.mt, PlayerState.initial]
    · simp only [if_neg hinp]
      cases htr : env.trackInitError with
      | some e =>
        simp only [htr, StateFacade.reset, StateFacade.updateLoadingState, StateFacade.set,
          List.append_assoc, List.singleton_append, List.cons_append, List.nil_append]
        refine ⟨?_, _, rfl, ?_⟩
        · simp [PlayerCore.mtConsistent, PlayerState.mt, PlayerState.initial]
        · intro p hp
          fin_cases hp <;> simp [PlayerCore.mtConsistent, PlayerState.mt, PlayerState.initial]
      | none =>
        simp only [htr]
        cases hmeta : env.metadataError with
        | some e =>
          simp only [hmeta, StateFacade.reset, StateFacade.updateLoadingState,
            StateFacade.set, List.append_assoc, List.singleton_append, List.cons_append,
            List.nil_append]
          refine ⟨?_, _, rfl, ?_⟩
          · simp [PlayerCore.mtConsistent, PlayerState.mt, PlayerState.initial]
          · intro p hp
            fin_cases hp <;> simp [PlayerCore.mtConsistent, PlayerState.mt, PlayerState.initial]
        | none =>
          simp only [hmeta]
          by_cases hsup : (PlayerCore.setupOutcome env).videoSupported = false ∧
              (PlayerCore.setupOutcome env).audioSupported = false
          · simp only [if_pos hsup, StateFacade.reset, StateFacade.updateLoadingState,
              StateFacade.updateDuration, StateFacade.updateMediaInfo,
              StateFacade.updateTracks, StateFacade.set, List.append_assoc,
              List.singleton_append, List.cons_append, List.nil_append]
            refine ⟨?_, _, rfl, ?_⟩
            · simp [PlayerCore.mtConsistent, PlayerState.mt, PlayerState.initial]
            · intro p hp
              fin_cases hp <;>
                simp [PlayerCore.mtConsistent, PlayerState.mt, PlayerState.initial]
          · simp only [if_neg hsup, StateFacade.reset, StateFacade.updateLoadingState,
              StateFacade.updateDuration, StateFacade.updateMediaInfo,
              StateFacade.updateTracks, StateFacade.updateReadyState, StateFacade.set,
              List.append_assoc, List.singleton_append, List.cons_append, List.nil_append]
            refine PlayerCore.loadTail_hist_ext env opts _ _ _ _ rfl ?_ ?_
            · intro p hp
              fin_cases hp <;>
                simp [PlayerCore.mtConsistent, PlayerState.mt, PlayerState.initial]
            · simp [PlayerCore.mtConsistent, PlayerState.mt, PlayerState.initial]

/-- C4: every notification snapshot a `load()` call produces pairs
`mediaInfo` and the three track sequences from the same load: each
snapshot shows the reset defaults, or the new `mediaInfo` still with the
reset-empty track lists, or the new `mediaInfo` with the new track lists —
a subscriber never observes the new load's `mediaInfo` with a previous
load's tracks or vice versa, because `reset()` and the three related
setters run in the same synchronous segment of `load` with no suspension
point between them. -/
theorem PlayerCore.load_mediaInfo_tracks_consistent (env : Env) (opts : LoadOptions)
    (s : Sys) :
    ∀ snap ∈ (PlayerCore.load env opts s).sys.facade.hist.drop s.facade.hist.length,
      PlayerCore.mtConsistent env snap := by
  intro snap hsnap
  obtain ⟨hcur, d, hh, hd⟩ := PlayerCore.loadBody_mt env opts s
  unfold PlayerCore.load at hsnap
  cases hb : (PlayerCore.loadBody env opts s).result with
  | ok u =>
    simp only [hb] at hsnap
    rw [hh, List.drop_left] at hsnap
    exact hd snap hsnap
  | error e =>
    simp only [hb, PlayerCore.handleError, StateFacade.updateError, StateFacade.set] at hsnap
    rw [hh, List.append_assoc, List.drop_left] at hsnap
    rcases List.mem_append.mp hsnap with hp | hp
    · exact hd snap hp
    · simp at hp
      subst hp
      unfold PlayerCore.mtConsistent PlayerState.mt at hcur ⊢
      exact hcur

/-- C4 witness: during a clean load on a fresh player, the reset snapshot
itself is among the produced snapshots and satisfies the pairing
invariant. -/
theorem load_mediaInfo_tracks_consistent_witness :
    PlayerCore.mtConsistent envOk PlayerState.initial :=
  PlayerCore.load_mediaInfo_tracks_consistent envOk {} sysIdle PlayerState.initial (by decide)
